import Mathlib

set_option maxHeartbeats 1600000

/-! Shallow embedding of app/models.py (bdn-audio): value-level semantics of the
network modules over exact rationals, plus a shape-level semantics that tracks
tensor dimensions and the shape errors the tensor library raises.  Nonlinear
scalar primitives (sigmoid, exp, log) are abstract parameters: every theorem
below holds for an arbitrary interpretation of them. -/

/-- Primitive scalar functions of the tensor library kept abstract; the network
structure never depends on their values. -/
structure Prims where
  sigmoid : ℚ → ℚ
  exp : ℚ → ℚ
  log : ℚ → ℚ

/-- Rank-2 view (channel, position) of a 1-D feature map.  The source passes
(batch, channel, length) tensors; every op modeled at the value level acts
pointwise in the batch axis, which the shape layer below tracks instead. -/
structure T1 where
  ch : ℕ
  len : ℕ
  data : ℕ → ℕ → ℚ

/-- Sum of f over 0, ..., n-1. -/
def sumR (n : ℕ) (f : ℕ → ℚ) : ℚ := ((List.range n).map f).sum

/-- Value of a zero-padded input at absolute position pos of the padded axis. -/
def padAt1 (x : T1) (c pos pad : ℕ) : ℚ :=
  if pos < pad ∨ pad + x.len ≤ pos then 0 else x.data c (pos - pad)

/-- Output length of a 1-D convolution (torch formula, valid inputs). -/
def conv1dOutLen (len k p d s : ℕ) : ℕ := (len + 2 * p - (d * (k - 1) + 1)) / s + 1

/-- Parameters of nn.Conv1d (models.py uses bias equal True in ConvBR1d and in
the plain stem/head convolutions). -/
structure Conv1d where
  inCh : ℕ
  outCh : ℕ
  kernel : ℕ
  padding : ℕ
  dilation : ℕ
  stride : ℕ
  weight : ℕ → ℕ → ℕ → ℚ
  bias : ℕ → ℚ

/-- Forward of nn.Conv1d: cross-correlation with zero padding. -/
def Conv1d.apply (m : Conv1d) (x : T1) : T1 :=
  ⟨m.outCh, conv1dOutLen x.len m.kernel m.padding m.dilation m.stride,
    fun oc l =>
      m.bias oc + sumR m.inCh fun ic => sumR m.kernel fun k =>
        m.weight oc ic k * padAt1 x ic (l * m.stride + k * m.dilation) m.padding⟩

/-- nn.BatchNorm1d in inference mode: the per-channel affine map determined by
the learned statistics (scale ch = gamma ch / sqrt (var ch + eps), and the
matching shift); storing the resolved rational scale and shift is faithful to
that affine map. -/
structure BatchNorm1d where
  features : ℕ
  scale : ℕ → ℚ
  shift : ℕ → ℚ

/-- Forward of BatchNorm1d as the per-channel affine map. -/
def BatchNorm1d.apply (m : BatchNorm1d) (x : T1) : T1 :=
  ⟨x.ch, x.len, fun c l => m.scale c * x.data c l + m.shift c⟩

/-- Rectified linear activation (torch.nn.ReLU), elementwise max with 0. -/
def relu1 (x : T1) : T1 := ⟨x.ch, x.len, fun c l => max 0 (x.data c l)⟩

/-- Elementwise sigmoid via the abstract primitive. -/
def sigmoid1 (P : Prims) (x : T1) : T1 := ⟨x.ch, x.len, fun c l => P.sigmoid (x.data c l)⟩

/-- Elementwise product with torch broadcasting (a size-1 axis repeats). -/
def mulB1 (x y : T1) : T1 :=
  ⟨max x.ch y.ch, max x.len y.len, fun c l =>
    x.data (if x.ch = 1 then 0 else c) (if x.len = 1 then 0 else l) *
      y.data (if y.ch = 1 then 0 else c) (if y.len = 1 then 0 else l)⟩

/-- Elementwise sum with torch broadcasting (a size-1 axis repeats). -/
def addB1 (x y : T1) : T1 :=
  ⟨max x.ch y.ch, max x.len y.len, fun c l =>
    x.data (if x.ch = 1 then 0 else c) (if x.len = 1 then 0 else l) +
      y.data (if y.ch = 1 then 0 else c) (if y.len = 1 then 0 else l)⟩

/-- ConvBR1d (models.py 247-278): Conv1d, BatchNorm1d, optional ReLU. -/
structure ConvBR1d where
  conv : Conv1d
  bn : BatchNorm1d
  is_activation : Bool

/-- Forward of ConvBR1d (models.py 274-278). -/
def ConvBR1d.forward (m : ConvBR1d) (x : T1) : T1 :=
  let y := m.bn.apply (m.conv.apply x)
  if m.is_activation then relu1 y else y

/-- SSE1d (models.py 110-117): a 1-by-1 convolution to one channel plus sigmoid
gives a per-position gate multiplied against the input. -/
structure SSE1d where
  conv : Conv1d

/-- Forward of SSE1d: x times sigmoid (conv x). -/
def SSE1d.forward (m : SSE1d) (P : Prims) (x : T1) : T1 :=
  mulB1 x (sigmoid1 P (m.conv.apply x))

/-- nn.AdaptiveAvgPool1d 1: mean over the length axis. -/
def adaptiveAvgPool1 (x : T1) : T1 :=
  ⟨x.ch, 1, fun c _ => sumR x.len (x.data c) / x.len⟩

/-- CSE1d (models.py 120-133): squeeze (global average pool, 1-by-1 conv down,
ReLU, 1-by-1 conv up, sigmoid) then excite (broadcast multiply). -/
structure CSE1d where
  conv1 : Conv1d
  conv2 : Conv1d

/-- Forward of CSE1d. -/
def CSE1d.forward (m : CSE1d) (P : Prims) (x : T1) : T1 :=
  mulB1 x (sigmoid1 P (m.conv2.apply (relu1 (m.conv1.apply (adaptiveAvgPool1 x)))))

/-- SCSE1d (models.py 136-143): holds a CSE1d and an SSE1d. -/
structure SCSE1d where
  c_se : CSE1d
  s_se : SSE1d

/-- Forward of SCSE1d (models.py 142-143): the sum of the two gate outputs. -/
def SCSE1d.forward (m : SCSE1d) (P : Prims) (x : T1) : T1 :=
  addB1 (m.c_se.forward P x) (m.s_se.forward P x)

/-- Pooling strategy selected by the pool constructor argument. -/
inductive PoolKind where
  | max : PoolKind
  | avg : PoolKind
deriving DecidableEq

/-- nn.MaxPool1d with kernel k and stride s: max over each window. -/
def maxPool1 (k s : ℕ) (x : T1) : T1 :=
  ⟨x.ch, (x.len - k) / s + 1, fun c l =>
    ((List.range k).map fun i => x.data c (l * s + i)).foldl max (x.data c (l * s))⟩

/-- nn.AvgPool1d with kernel k and stride s: mean over each window. -/
def avgPool1 (k s : ℕ) (x : T1) : T1 :=
  ⟨x.ch, (x.len - k) / s + 1, fun c l => sumR k (fun i => x.data c (l * s + i)) / k⟩

/-- Pooling op chosen by kind. -/
def pool1 (pk : PoolKind) (k s : ℕ) (x : T1) : T1 :=
  match pk with
  | .max => maxPool1 k s x
  | .avg => avgPool1 k s x

/-- SENextBottleneck1d (models.py 198-244): conv1 and conv2 are 3-tap ConvBR1d
blocks, se is an SCSE1d, the pool field exists when stride exceeds 1, and the
shortcut field exists when is_shortcut is set. -/
structure SENextBottleneck1d where
  conv1 : ConvBR1d
  conv2 : ConvBR1d
  se : SCSE1d
  stride : ℕ
  poolKind : PoolKind
  is_shortcut : Bool
  shortcut : ConvBR1d

/-- Forward of SENextBottleneck1d (models.py 232-244): the residual branch is
the chained composition conv2 (conv1 x), then pooling when striding, then the
SE gate; the shortcut branch optionally average-pools and projects; the block
ends with ReLU of the sum. -/
def SENextBottleneck1d.forward (m : SENextBottleneck1d) (P : Prims) (x : T1) : T1 :=
  let s := m.conv1.forward x
  let s := m.conv2.forward s
  let s := if 1 < m.stride then pool1 m.poolKind m.stride m.stride s else s
  let s := m.se.forward P s
  let x1 :=
    if m.is_shortcut then
      m.shortcut.forward (if 1 < m.stride then avgPool1 m.stride m.stride x else x)
    else x
  relu1 (addB1 x1 s)

/-- nn.ConvTranspose1d parameters (kernel 2, stride 2 in Up1d); weight indexed
(input channel, output channel, tap) as in torch. -/
structure ConvTranspose1d where
  inCh : ℕ
  outCh : ℕ
  kernel : ℕ
  stride : ℕ
  weight : ℕ → ℕ → ℕ → ℚ
  bias : ℕ → ℚ

/-- Forward of nn.ConvTranspose1d with no padding: output position l gathers
the input positions j with j * stride + k = l. -/
def ConvTranspose1d.apply (m : ConvTranspose1d) (x : T1) : T1 :=
  ⟨m.outCh, (x.len - 1) * m.stride + m.kernel,
    fun oc l =>
      m.bias oc + sumR m.inCh fun ic => sumR m.kernel fun k =>
        if k ≤ l ∧ (l - k) % m.stride = 0 ∧ (l - k) / m.stride < x.len then
          m.weight ic oc k * x.data ic ((l - k) / m.stride)
        else 0⟩

/-- F.pad on the last axis with signed amounts (negative pads crop), as used by
Up1d.forward (models.py 368). -/
def pad1 (a b : ℤ) (x : T1) : T1 :=
  ⟨x.ch, ((x.len : ℤ) + a + b).toNat, fun c i =>
    if 0 ≤ (i : ℤ) - a ∧ (i : ℤ) - a < (x.len : ℤ) then x.data c ((i : ℤ) - a).toNat else 0⟩

/-- torch.cat along the channel axis (dim 1 of the batched tensor). -/
def cat1 (a b : T1) : T1 :=
  ⟨a.ch + b.ch, a.len, fun c l => if c < a.ch then a.data c l else b.data (c - a.ch) l⟩

/-- nn.Upsample with scale_factor 2, mode linear, align_corners True. -/
def upsampleLinear1 (x : T1) : T1 :=
  ⟨x.ch, 2 * x.len, fun c l =>
    if x.len ≤ 1 then x.data c 0
    else
      let pos : ℚ := (l : ℚ) * ((x.len : ℚ) - 1) / ((2 * x.len : ℚ) - 1)
      let i0 : ℤ := Rat.floor pos
      let fr : ℚ := pos - (i0 : ℚ)
      (1 - fr) * x.data c i0.toNat + fr * x.data c (min (i0.toNat + 1) (x.len - 1))⟩

/-- Upsampling variant resolved at construction in Up1d (models.py 350-355). -/
inductive Up1dKind where
  | transposed : ConvTranspose1d → Up1dKind
  | upsample : Up1dKind

/-- Up1d (models.py 335-375): upsample, reconcile the length with the skip
input, optionally concatenate, then two ConvBR1d stages. -/
structure Up1d where
  up : Up1dKind
  merge : Bool
  conv1 : ConvBR1d
  conv2 : ConvBR1d

/-- Forward of Up1d (models.py 365-375): diff is the signed length difference
target minus upsampled, split as floor half on the left and the rest on the
right (negative amounts crop). -/
def Up1d.forward (m : Up1d) (x1 x2 : T1) : T1 :=
  let x1 :=
    match m.up with
    | .transposed c => c.apply x1
    | .upsample => upsampleLinear1 x1
  let d : ℤ := (x2.len : ℤ) - (x1.len : ℤ)
  let x1 := pad1 (Int.fdiv d 2) (d - Int.fdiv d 2) x1
  let x := if m.merge then cat1 x2 x1 else x1
  m.conv2.forward (m.conv1.forward x)

/-- nn.Hardtanh: clamp into the closed interval lo to hi. -/
def hardtanh1 (lo hi : ℚ) (x : T1) : T1 :=
  ⟨x.ch, x.len, fun c l => min hi (max lo (x.data c l))⟩

/-- UNet1d (models.py 421-464): stem conv (kernel 3, padding 2), four Down1d
stages (each one SENextBottleneck1d with stride 2 and shortcut), a center
bottleneck, four Up1d stages, and a head conv (kernel 3, padding 0) followed
by Hardtanh (1e-10, 1). -/
structure UNet1d where
  inc : Conv1d
  down1 : SENextBottleneck1d
  down2 : SENextBottleneck1d
  down3 : SENextBottleneck1d
  down4 : SENextBottleneck1d
  center : SENextBottleneck1d
  up4 : Up1d
  up3 : Up1d
  up2 : Up1d
  up1 : Up1d
  outc : Conv1d

/-- Forward of UNet1d (models.py 452-464), kept line by line: each decoder call
receives the original encoder outputs, so every n bound before the last is
immediately shadowed. -/
def UNet1d.forward (m : UNet1d) (P : Prims) (x : T1) : T1 :=
  let n0 := m.inc.apply x
  let n1 := m.down1.forward P n0
  let n2 := m.down2.forward P n1
  let n3 := m.down3.forward P n2
  let n4 := m.down4.forward P n3
  let n4 := m.center.forward P n4
  let n := m.up4.forward n4 n3
  let n := m.up3.forward n3 n2
  let n := m.up2.forward n2 n1
  let n := m.up1.forward n1 n0
  hardtanh1 (1 / 10000000000) 1 (m.outc.apply n)

/-- Sum of all entries of a rank-2 map. -/
def t1sum (x : T1) : ℚ := sumR x.ch fun c => sumR x.len (x.data c)

/-- Mean of all entries (torch.mean). -/
def t1mean (x : T1) : ℚ := t1sum x / (x.ch * x.len : ℕ)

/-- Elementwise binary cross entropy, as F.binary_cross_entropy with reduce
False: minus (t log x plus (1 - t) log (1 - x)); torch clamps each log term
below at -100. -/
def bceData (P : Prims) (x t : T1) (c l : ℕ) : ℚ :=
  -(t.data c l * max (-100) (P.log (x.data c l)) +
    (1 - t.data c l) * max (-100) (P.log (1 - x.data c l)))

/-- F.binary_cross_entropy with reduce False: the elementwise tensor. -/
def binaryCrossEntropyNone (P : Prims) (x t : T1) : T1 :=
  ⟨x.ch, x.len, fun c l => bceData P x t c l⟩

/-- F.binary_cross_entropy with the default mean reduction. -/
def binaryCrossEntropyMean (P : Prims) (x t : T1) : ℚ :=
  t1mean (binaryCrossEntropyNone P x t)

/-- FocalLoss (models.py 20-37); gamma is modeled on the naturals (the source
default is the float 2 and the claim instantiates 0, both natural). -/
structure FocalLoss where
  alpha : ℚ
  gamma : ℕ
  reduce : Bool

/-- Forward of FocalLoss (models.py 29-37): BCE elementwise, pt is exp of minus
BCE, F_loss is alpha times (1 - pt) to the gamma times BCE; mean when reduce
is set, otherwise the elementwise tensor. -/
def FocalLoss.forward (m : FocalLoss) (P : Prims) (inputs targets : T1) : ℚ ⊕ T1 :=
  let BCE := binaryCrossEntropyNone P inputs targets
  let floss : T1 :=
    ⟨BCE.ch, BCE.len, fun c l =>
      m.alpha * (1 - P.exp (-(BCE.data c l))) ^ m.gamma * BCE.data c l⟩
  if m.reduce then Sum.inl (t1mean floss) else Sum.inr floss

/-- Rank-3 view (channel, row, column) of a 2-D feature map; the batch axis is
tracked by the shape layer. -/
structure T2 where
  ch : ℕ
  h : ℕ
  w : ℕ
  data : ℕ → ℕ → ℕ → ℚ

/-- Value of a zero-padded 2-D input at absolute padded coordinates. -/
def padAt2 (x : T2) (c pi pj pad : ℕ) : ℚ :=
  if pi < pad ∨ pad + x.h ≤ pi ∨ pj < pad ∨ pad + x.w ≤ pj then 0
  else x.data c (pi - pad) (pj - pad)

/-- Parameters of nn.Conv2d with a square kernel (ConvBR2d passes bias False;
a zero bias function models that). -/
structure Conv2d where
  inCh : ℕ
  outCh : ℕ
  kernel : ℕ
  padding : ℕ
  dilation : ℕ
  stride : ℕ
  weight : ℕ → ℕ → ℕ → ℕ → ℚ
  bias : ℕ → ℚ

/-- Forward of nn.Conv2d: cross-correlation with square zero padding. -/
def Conv2d.apply (m : Conv2d) (x : T2) : T2 :=
  ⟨m.outCh, conv1dOutLen x.h m.kernel m.padding m.dilation m.stride,
    conv1dOutLen x.w m.kernel m.padding m.dilation m.stride,
    fun oc i j =>
      m.bias oc + sumR m.inCh fun ic => sumR m.kernel fun ki => sumR m.kernel fun kj =>
        m.weight oc ic ki kj *
          padAt2 x ic (i * m.stride + ki * m.dilation) (j * m.stride + kj * m.dilation)
            m.padding⟩

/-- nn.BatchNorm2d in inference mode, as the per-channel affine map it
denotes. -/
structure BatchNorm2d where
  features : ℕ
  scale : ℕ → ℚ
  shift : ℕ → ℚ

/-- Forward of BatchNorm2d as the per-channel affine map. -/
def BatchNorm2d.apply (m : BatchNorm2d) (x : T2) : T2 :=
  ⟨x.ch, x.h, x.w, fun c i j => m.scale c * x.data c i j + m.shift c⟩

/-- Rectified linear activation on a 2-D map. -/
def relu2 (x : T2) : T2 := ⟨x.ch, x.h, x.w, fun c i j => max 0 (x.data c i j)⟩

/-- Elementwise sigmoid on a 2-D map. -/
def sigmoid2 (P : Prims) (x : T2) : T2 :=
  ⟨x.ch, x.h, x.w, fun c i j => P.sigmoid (x.data c i j)⟩

/-- Elementwise product with torch broadcasting on (channel, row, column). -/
def mulB2 (x y : T2) : T2 :=
  ⟨max x.ch y.ch, max x.h y.h, max x.w y.w, fun c i j =>
    x.data (if x.ch = 1 then 0 else c) (if x.h = 1 then 0 else i) (if x.w = 1 then 0 else j) *
      y.data (if y.ch = 1 then 0 else c) (if y.h = 1 then 0 else i)
        (if y.w = 1 then 0 else j)⟩

/-- Elementwise sum with torch broadcasting on (channel, row, column). -/
def addB2 (x y : T2) : T2 :=
  ⟨max x.ch y.ch, max x.h y.h, max x.w y.w, fun c i j =>
    x.data (if x.ch = 1 then 0 else c) (if x.h = 1 then 0 else i) (if x.w = 1 then 0 else j) +
      y.data (if y.ch = 1 then 0 else c) (if y.h = 1 then 0 else i)
        (if y.w = 1 then 0 else j)⟩

/-- ConvBR2d (models.py 40-71): Conv2d (bias False), BatchNorm2d, optional
ReLU. -/
structure ConvBR2d where
  conv : Conv2d
  bn : BatchNorm2d
  is_activation : Bool

/-- Forward of ConvBR2d (models.py 67-71). -/
def ConvBR2d.forward (m : ConvBR2d) (x : T2) : T2 :=
  let y := m.bn.apply (m.conv.apply x)
  if m.is_activation then relu2 y else y

/-- SSE2d (models.py 74-81). -/
structure SSE2d where
  conv : Conv2d

/-- Forward of SSE2d: x times sigmoid (conv x). -/
def SSE2d.forward (m : SSE2d) (P : Prims) (x : T2) : T2 :=
  mulB2 x (sigmoid2 P (m.conv.apply x))

/-- nn.AdaptiveAvgPool2d 1: mean over both spatial axes. -/
def adaptiveAvgPool2 (x : T2) : T2 :=
  ⟨x.ch, 1, 1, fun c _ _ => (sumR x.h fun i => sumR x.w fun j => x.data c i j) / (x.h * x.w : ℕ)⟩

/-- CSE2d (models.py 84-97). -/
structure CSE2d where
  conv1 : Conv2d
  conv2 : Conv2d

/-- Forward of CSE2d: squeeze, excite, broadcast multiply. -/
def CSE2d.forward (m : CSE2d) (P : Prims) (x : T2) : T2 :=
  mulB2 x (sigmoid2 P (m.conv2.apply (relu2 (m.conv1.apply (adaptiveAvgPool2 x)))))

/-- SCSE2d (models.py 100-107). -/
structure SCSE2d where
  c_se : CSE2d
  s_se : SSE2d

/-- Forward of SCSE2d (models.py 106-107): sum of the two gate outputs. -/
def SCSE2d.forward (m : SCSE2d) (P : Prims) (x : T2) : T2 :=
  addB2 (m.c_se.forward P x) (m.s_se.forward P x)

/-- nn.MaxPool2d with square kernel k and stride s. -/
def maxPool2 (k s : ℕ) (x : T2) : T2 :=
  ⟨x.ch, (x.h - k) / s + 1, (x.w - k) / s + 1, fun c i j =>
    (((List.range k).map fun di =>
        ((List.range k).map fun dj => x.data c (i * s + di) (j * s + dj)).foldl max
          (x.data c (i * s + di) (j * s))).foldl max (x.data c (i * s) (j * s)))⟩

/-- nn.AvgPool2d (and F.avg_pool2d) with square kernel k and stride s. -/
def avgPool2 (k s : ℕ) (x : T2) : T2 :=
  ⟨x.ch, (x.h - k) / s + 1, (x.w - k) / s + 1, fun c i j =>
    (sumR k fun di => sumR k fun dj => x.data c (i * s + di) (j * s + dj)) / (k * k : ℕ)⟩

/-- Pooling op chosen by kind. -/
def pool2 (pk : PoolKind) (k s : ℕ) (x : T2) : T2 :=
  match pk with
  | .max => maxPool2 k s x
  | .avg => avgPool2 k s x

/-- SENextBottleneck2d (models.py 146-195): conv1 and conv2 are 3 by 3 ConvBR2d
blocks both taking in_channels (conv2 is applied to the block input), se is a
CSE2d, the pool field exists when stride exceeds 1, and the shortcut field
exists when is_shortcut is set. -/
structure SENextBottleneck2d where
  conv1 : ConvBR2d
  conv2 : ConvBR2d
  se : CSE2d
  stride : ℕ
  poolKind : PoolKind
  is_shortcut : Bool
  shortcut : ConvBR2d

/-- Forward of SENextBottleneck2d (models.py 182-195), kept line by line: s is
bound to conv1 x and immediately rebound to conv2 x (the source applies conv2
to the original input, discarding the conv1 result), then pooling when
striding, the SE gate, the optional shortcut, sum, ReLU. -/
def SENextBottleneck2d.forward (m : SENextBottleneck2d) (P : Prims) (x : T2) : T2 :=
  let s := m.conv1.forward x
  let s := m.conv2.forward x
  let s := if 1 < m.stride then pool2 m.poolKind m.stride m.stride s else s
  let s := m.se.forward P s
  let x1 :=
    if m.is_shortcut then
      m.shortcut.forward (if 1 < m.stride then avgPool2 m.stride m.stride x else x)
    else x
  relu2 (addB2 x1 s)

/-- Failure conditions raised while running a forward pass (the source has no
error handling of its own; these are the conditions the tensor library or the
Python runtime raises). -/
inductive Err where
  | chMismatch : Err
  | sizeMismatch : Err
  | broadcastMismatch : Err
  | tooSmall : Err
  | padNegative : Err
  | viewMismatch : Err
  | attrMissing : Err
deriving DecidableEq

/-- Shape (batch, channel, length) of a rank-3 tensor. -/
structure S1 where
  batch : ℕ
  ch : ℕ
  len : ℕ
deriving DecidableEq

/-- Shape (batch, channel, height, width) of a rank-4 tensor. -/
structure S2 where
  batch : ℕ
  ch : ℕ
  h : ℕ
  w : ℕ
deriving DecidableEq

/-- Output size of a convolution along one axis; torch raises when the output
would be empty. -/
def convOutShape (len k p d s : ℕ) : Except Err ℕ :=
  let e : ℤ := (len : ℤ) + 2 * p - ((d : ℤ) * (k - 1) + 1)
  if e < 0 then .error .tooSmall else .ok (e.toNat / s + 1)

/-- Shape of nn.Conv1d: the input channel count must match. -/
def conv1dShape (ic oc k p d s : ℕ) (t : S1) : Except Err S1 :=
  if t.ch = ic then
    do
      let L ← convOutShape t.len k p d s
      pure ⟨t.batch, oc, L⟩
  else .error .chMismatch

/-- Shape of BatchNorm1d: the feature count must match the channels. -/
def batchNorm1dShape (f : ℕ) (t : S1) : Except Err S1 :=
  if t.ch = f then .ok t else .error .chMismatch

/-- Shape of ConvBR1d: conv, batch norm, ReLU (shape-neutral). -/
def convBR1dShape (ic oc k p d s : ℕ) (t : S1) : Except Err S1 := do
  let t ← conv1dShape ic oc k p d s t
  batchNorm1dShape oc t

/-- Shape of MaxPool1d and AvgPool1d with kernel k, stride s: torch raises when
the window does not fit. -/
def pool1Shape (k s : ℕ) (t : S1) : Except Err S1 :=
  if k ≤ t.len then .ok ⟨t.batch, t.ch, (t.len - k) / s + 1⟩ else .error .tooSmall

/-- Shape of AdaptiveAvgPool1d 1. -/
def adaptiveAvgPool1Shape (t : S1) : Except Err S1 :=
  if 1 ≤ t.len then .ok ⟨t.batch, t.ch, 1⟩ else .error .tooSmall

/-- Broadcast of one axis: equal sizes, or one side of size 1. -/
def broadcastNat (a b : ℕ) : Except Err ℕ :=
  if a = b then .ok a
  else if a = 1 then .ok b
  else if b = 1 then .ok a
  else .error .broadcastMismatch

/-- Shape of a broadcast binary op (sum or product) on rank-3 tensors. -/
def broadcastBin1Shape (x y : S1) : Except Err S1 := do
  let b ← broadcastNat x.batch y.batch
  let c ← broadcastNat x.ch y.ch
  let l ← broadcastNat x.len y.len
  pure ⟨b, c, l⟩

/-- Shape of torch.cat along dim 1: all other axes must agree. -/
def cat1Shape (a b : S1) : Except Err S1 :=
  if a.batch = b.batch ∧ a.len = b.len then .ok ⟨a.batch, a.ch + b.ch, a.len⟩
  else .error .sizeMismatch

/-- Shape of SSE1d.forward for a module built with in_channels ic. -/
def sse1dShape (ic : ℕ) (t : S1) : Except Err S1 := do
  let g ← conv1dShape ic 1 1 0 1 1 t
  broadcastBin1Shape t g

/-- Shape of CSE1d.forward: the squeeze path uses mid = ic / red channels as
computed by the constructor (models.py 123-129); mid is passed explicitly. -/
def cse1dShape (ic mid : ℕ) (t : S1) : Except Err S1 := do
  let g ← adaptiveAvgPool1Shape t
  let g ← conv1dShape ic mid 1 0 1 1 g
  let g ← conv1dShape mid ic 1 0 1 1 g
  broadcastBin1Shape t g

/-- Construction plus forward of CSE1d: the constructor computes the squeezed
width by floor division in_channels // reduction (models.py 125) and performs
no divisibility validation at all; building the two 1-by-1 convolutions never
raises. -/
def cse1dConstructRun (ic red : ℕ) (t : S1) : Except Err S1 :=
  cse1dShape ic (ic / red) t

/-- Shape of SCSE1d.forward. -/
def scse1dShape (ic mid : ℕ) (t : S1) : Except Err S1 := do
  let a ← cse1dShape ic mid t
  let b ← sse1dShape ic t
  broadcastBin1Shape a b

/-- Shape of SENextBottleneck1d.forward for a block built with the given
constructor arguments (models.py 201-244): conv1 maps ic to oc, conv2 maps oc
to oc, both 3-tap with padding 1; se is SCSE1d (oc, red). -/
def bottleneck1dShape (ic oc stride red : ℕ) (isShortcut : Bool) (t : S1) :
    Except Err S1 := do
  let s ← convBR1dShape ic oc 3 1 1 1 t
  let s ← convBR1dShape oc oc 3 1 1 1 s
  let s ← if 1 < stride then pool1Shape stride stride s else pure s
  let s ← scse1dShape oc (oc / red) s
  let x ←
    if isShortcut then do
      let x ← if 1 < stride then pool1Shape stride stride t else pure t
      convBR1dShape ic oc 1 0 1 1 x
    else pure t
  broadcastBin1Shape x s

/-- Shape of Down1d (models.py 281-300): a single stride-2 shortcut bottleneck
with reduction 16. -/
def down1dShape (ic oc : ℕ) (t : S1) : Except Err S1 :=
  bottleneck1dShape ic oc 2 16 true t

/-- Shape of nn.ConvTranspose1d with kernel k and stride s, no padding. -/
def convT1dShape (ic oc k s : ℕ) (t : S1) : Except Err S1 :=
  if t.ch = ic then
    if 1 ≤ t.len then .ok ⟨t.batch, oc, (t.len - 1) * s + k⟩ else .error .tooSmall
  else .error .chMismatch

/-- Shape of F.pad with signed amounts on the length axis; torch fails when the
resulting size is negative. -/
def pad1Shape (a b : ℤ) (t : S1) : Except Err S1 :=
  if (t.len : ℤ) + a + b < 0 then .error .padNegative
  else .ok ⟨t.batch, t.ch, ((t.len : ℤ) + a + b).toNat⟩

/-- Length reconciliation step of Up1d.forward (models.py 367-368): diff is the
target length minus the current length, padded floor (diff / 2) on the left
and the remainder on the right; Python floor division is Int.fdiv. -/
def up1dAlign (t : S1) (targetLen : ℕ) : Except Err S1 :=
  let d : ℤ := (targetLen : ℤ) - (t.len : ℤ)
  pad1Shape (Int.fdiv d 2) (d - Int.fdiv d 2) t

/-- Shape of nn.Upsample scale_factor 2 (linear). -/
def upsample1Shape (t : S1) : Except Err S1 := .ok ⟨t.batch, t.ch, 2 * t.len⟩

/-- Shape of Up1d.forward (models.py 340-375) for a stage built with the given
in and out channels: upsample x1, align its length to x2, concatenate when
merging, then ConvBR1d (ic + oc to oc) and ConvBR1d (oc to oc). -/
def up1dShape (ic oc : ℕ) (bilinear merge : Bool) (x1 x2 : S1) : Except Err S1 := do
  let x1 ← if bilinear then upsample1Shape x1 else convT1dShape ic ic 2 2 x1
  let x1 ← up1dAlign x1 x2.len
  let x ← if merge then cat1Shape x2 x1 else pure x1
  let x ← convBR1dShape (if merge then ic + oc else ic) oc 3 1 1 1 x
  convBR1dShape oc oc 3 1 1 1 x

/-- Shape of UNet1d.forward (models.py 421-464) with base channel 128: the stem
conv has padding 2, the four decoder stages receive the original encoder
outputs (the first three results are bound and discarded, exactly as in the
source), and the head conv has padding 0 followed by Hardtanh. -/
def unet1dShape (ic oc : ℕ) (t : S1) : Except Err S1 := do
  let n0 ← conv1dShape ic 128 3 2 1 1 t
  let n1 ← down1dShape 128 256 n0
  let n2 ← down1dShape 256 512 n1
  let n3 ← down1dShape 512 1024 n2
  let n4 ← down1dShape 1024 2048 n3
  let n4 ← bottleneck1dShape 2048 2048 1 16 false n4
  let _n ← up1dShape 2048 1024 false true n4 n3
  let _n ← up1dShape 1024 512 false true n3 n2
  let _n ← up1dShape 512 256 false true n2 n1
  let n ← up1dShape 256 128 false true n1 n0
  conv1dShape 128 oc 3 0 1 1 n

/-- Shape of ResNext1d.forward (models.py 512-549).  Modeled from the source:
__init__ (models.py 513-541) assigns only self.inc and self.outc, but forward
line 546 reads self.bottlenecks, so after the stem convolution succeeds the
Python attribute lookup raises AttributeError on every input. -/
def resNext1dShape (ic oc : ℕ) (t : S1) : Except Err S1 := do
  let _n ← conv1dShape ic 1024 5 2 1 1 t
  .error .attrMissing

/-- Shape of nn.Conv2d with a square kernel. -/
def conv2dShape (ic oc k p d s : ℕ) (t : S2) : Except Err S2 :=
  if t.ch = ic then
    do
      let H ← convOutShape t.h k p d s
      let W ← convOutShape t.w k p d s
      pure ⟨t.batch, oc, H, W⟩
  else .error .chMismatch

/-- Shape of BatchNorm2d. -/
def batchNorm2dShape (f : ℕ) (t : S2) : Except Err S2 :=
  if t.ch = f then .ok t else .error .chMismatch

/-- Shape of ConvBR2d. -/
def convBR2dShape (ic oc k p d s : ℕ) (t : S2) : Except Err S2 := do
  let t ← conv2dShape ic oc k p d s t
  batchNorm2dShape oc t

/-- Shape of MaxPool2d, AvgPool2d and F.avg_pool2d with square kernel k and
stride s. -/
def pool2Shape (k s : ℕ) (t : S2) : Except Err S2 :=
  if k ≤ t.h ∧ k ≤ t.w then .ok ⟨t.batch, t.ch, (t.h - k) / s + 1, (t.w - k) / s + 1⟩
  else .error .tooSmall

/-- Shape of AdaptiveAvgPool2d 1. -/
def adaptiveAvgPool2Shape (t : S2) : Except Err S2 :=
  if 1 ≤ t.h ∧ 1 ≤ t.w then .ok ⟨t.batch, t.ch, 1, 1⟩ else .error .tooSmall

/-- Shape of a broadcast binary op on rank-4 tensors. -/
def broadcastBin2Shape (x y : S2) : Except Err S2 := do
  let b ← broadcastNat x.batch y.batch
  let c ← broadcastNat x.ch y.ch
  let hh ← broadcastNat x.h y.h
  let ww ← broadcastNat x.w y.w
  pure ⟨b, c, hh, ww⟩

/-- Shape of torch.cat along dim 1 of rank-4 tensors. -/
def cat2Shape (a b : S2) : Except Err S2 :=
  if a.batch = b.batch ∧ a.h = b.h ∧ a.w = b.w then .ok ⟨a.batch, a.ch + b.ch, a.h, a.w⟩
  else .error .sizeMismatch

/-- Shape of CSE2d.forward with squeezed width mid. -/
def cse2dShape (ic mid : ℕ) (t : S2) : Except Err S2 := do
  let g ← adaptiveAvgPool2Shape t
  let g ← conv2dShape ic mid 1 0 1 1 g
  let g ← conv2dShape mid ic 1 0 1 1 g
  broadcastBin2Shape t g

/-- Construction plus forward of CSE2d: the constructor computes the squeezed
width by floor division in_channels // reduction (models.py 89) with no
divisibility validation; building the two 1-by-1 convolutions never raises. -/
def cse2dConstructRun (ic red : ℕ) (t : S2) : Except Err S2 :=
  cse2dShape ic (ic / red) t

/-- Shape of SENextBottleneck2d.forward for a block built with the given
constructor arguments (models.py 149-195): conv1 and conv2 BOTH map ic to oc
with a 3 by 3 kernel (conv2 is applied to the block input x, models.py 184);
conv1 x is still evaluated first, so its failures are raised.  The 2-D block
gates with CSE2d (oc, red). -/
def bottleneck2dShape (ic oc stride red p d : ℕ) (isShortcut : Bool) (t : S2) :
    Except Err S2 := do
  let _s ← convBR2dShape ic oc 3 p d 1 t
  let s ← convBR2dShape ic oc 3 p d 1 t
  let s ← if 1 < stride then pool2Shape stride stride s else pure s
  let s ← cse2dShape oc (oc / red) s
  let x ←
    if isShortcut then do
      let x ← if 1 < stride then pool2Shape stride stride t else pure t
      convBR2dShape ic oc 1 0 1 1 x
    else pure t
  broadcastBin2Shape x s

/-- Shape of Down2d (models.py 303-332): a stride-2 shortcut bottleneck then a
stride-1 non-shortcut bottleneck, both with default reduction 4, padding 1. -/
def down2dShape (ic oc : ℕ) (t : S2) : Except Err S2 := do
  let t ← bottleneck2dShape ic oc 2 4 1 1 true t
  bottleneck2dShape oc oc 1 4 1 1 false t

/-- Shape of nn.ConvTranspose2d with square kernel k, stride s, padding p. -/
def convT2dShape (ic oc k s p : ℕ) (t : S2) : Except Err S2 :=
  if t.ch = ic then
    let eh : ℤ := ((t.h : ℤ) - 1) * s - 2 * p + k
    let ew : ℤ := ((t.w : ℤ) - 1) * s - 2 * p + k
    if eh < 1 ∨ ew < 1 then .error .tooSmall else .ok ⟨t.batch, oc, eh.toNat, ew.toNat⟩
  else .error .chMismatch

/-- Shape of nn.Upsample scale_factor 2 (bilinear). -/
def upsample2Shape (t : S2) : Except Err S2 := .ok ⟨t.batch, t.ch, 2 * t.h, 2 * t.w⟩

/-- Shape of F.pad with a 2-tuple on a rank-4 tensor: torch pads ONLY the last
axis (width), left by a and right by b. -/
def pad2LastShape (a b : ℤ) (t : S2) : Except Err S2 :=
  if (t.w : ℤ) + a + b < 0 then .error .padNegative
  else .ok ⟨t.batch, t.ch, t.h, ((t.w : ℤ) + a + b).toNat⟩

/-- Size reconciliation step of Up2d.forward (models.py 409-411): diff_h and
diff_w are the signed height and width differences, but the pad tuple has only
two entries, so torch pads only the width axis: left by diff_h minus floor
(diff_h / 2), right by diff_w minus floor (diff_w / 2); the height is left
unchanged. -/
def up2dAlign (t : S2) (th tw : ℕ) : Except Err S2 :=
  let dh : ℤ := (th : ℤ) - (t.h : ℤ)
  let dw : ℤ := (tw : ℤ) - (t.w : ℤ)
  pad2LastShape (dh - Int.fdiv dh 2) (dw - Int.fdiv dw 2) t

/-- Shape of Up2d.forward (models.py 383-418): upsample x1, run the (broken)
size reconciliation against x2, concatenate when merging, then ConvBR2d
(ic + oc to ic) and a default SENextBottleneck2d (ic to oc). -/
def up2dShape (ic oc : ℕ) (bilinear merge : Bool) (x1 x2 : S2) : Except Err S2 := do
  let x1 ← if bilinear then upsample2Shape x1 else convT2dShape ic ic 2 2 0 x1
  let x1 ← up2dAlign x1 x2.h x2.w
  let x ← if merge then cat2Shape x2 x1 else pure x1
  let x ← convBR2dShape (if merge then ic + oc else ic) ic 3 1 1 1 x
  bottleneck2dShape ic oc 1 4 1 1 true x

/-- Shape of UNet2d.forward (models.py 467-509) with base channel 16 on a rank-3
input (batch, H, W): view to (batch, 1, H, W), log, stem conv, three Down2d
stages, three Up2d stages fed the original encoder outputs (the first two
results are discarded, as in the source), the head (bottleneck plus 1-by-1
conv), exp (n + x), view back to the input shape. -/
def unet2dShape (B H W : ℕ) : Except Err (ℕ × ℕ × ℕ) := do
  let x : S2 := ⟨B, 1, H, W⟩
  let n0 ← conv2dShape 1 16 3 1 1 1 x
  let n1 ← down2dShape 16 32 n0
  let n2 ← down2dShape 32 64 n1
  let n3 ← down2dShape 64 128 n2
  let _n ← up2dShape 128 64 true true n3 n2
  let _n ← up2dShape 64 32 true true n2 n1
  let n ← up2dShape 32 16 true true n1 n0
  let n ← bottleneck2dShape 16 16 1 4 1 1 true n
  let n ← conv2dShape 16 1 1 0 1 1 n
  let y ← broadcastBin2Shape n x
  if y.batch * y.ch * y.h * y.w = B * H * W then pure (B, H, W) else .error .viewMismatch

/-- Shape of Micro2d.forward (models.py 552-576) on a rank-3 input: view to one
channel, the inc stack (two convs, two transposed convs, final kernel-3 conv,
sigmoid), view back. -/
def micro2dShape (B H W : ℕ) : Except Err (ℕ × ℕ × ℕ) := do
  let x : S2 := ⟨B, 1, H, W⟩
  let a ← conv2dShape 1 128 5 2 1 1 x
  let a ← conv2dShape 128 128 3 1 1 1 a
  let a ← convT2dShape 128 128 5 1 2 a
  let a ← convT2dShape 128 128 3 1 0 a
  let a ← conv2dShape 128 1 3 0 1 1 a
  if a.batch * a.ch * a.h * a.w = B * H * W then pure (B, H, W) else .error .viewMismatch

/-- Shape of ResNext2d.forward (models.py 579-622) on a rank-3 input: view to
one channel, two ConvBR2d stems, two stride-1 shortcut bottlenecks, 1-by-1 conv
head with sigmoid, residual sum with the viewed input, view back. -/
def resNext2dShape (B H W : ℕ) : Except Err (ℕ × ℕ × ℕ) := do
  let x : S2 := ⟨B, 1, H, W⟩
  let n ← convBR2dShape 1 128 5 2 1 1 x
  let n ← convBR2dShape 128 128 3 1 1 1 n
  let n ← bottleneck2dShape 128 256 1 4 1 1 true n
  let n ← bottleneck2dShape 256 512 1 4 1 1 true n
  let n ← conv2dShape 512 1 1 0 1 1 n
  let y ← broadcastBin2Shape n x
  if y.batch * y.ch * y.h * y.w = B * H * W then pure (B, H, W) else .error .viewMismatch

@[simp] theorem ok_bind {α β : Type} (a : α) (f : α → Except Err β) :
    (Except.ok a : Except Err α) >>= f = f a := rfl

@[simp] theorem error_bind {α β : Type} (e : Err) (f : α → Except Err β) :
    (Except.error e : Except Err α) >>= f = Except.error e := rfl

@[simp] theorem pure_eq_ok {α : Type} (a : α) : (pure a : Except Err α) = Except.ok a := rfl

theorem convOutShape_33_1 (L : ℕ) (h : 1 ≤ L) : convOutShape L 3 1 1 1 = .ok L := by
  simp only [convOutShape]
  rw [if_neg (by push_cast; omega)]
  congr 1
  push_cast
  omega

theorem convOutShape_32 (L : ℕ) : convOutShape L 3 2 1 1 = .ok (L + 2) := by
  simp only [convOutShape]
  rw [if_neg (by push_cast; omega)]
  congr 1
  push_cast
  omega

theorem convOutShape_30 (L : ℕ) (h : 3 ≤ L) : convOutShape L 3 0 1 1 = .ok (L - 2) := by
  simp only [convOutShape]
  rw [if_neg (by push_cast; omega)]
  congr 1
  push_cast
  omega

theorem convOutShape_52 (L : ℕ) (h : 1 ≤ L) : convOutShape L 5 2 1 1 = .ok L := by
  simp only [convOutShape]
  rw [if_neg (by push_cast; omega)]
  congr 1
  push_cast
  omega

theorem convOutShape_10 (L : ℕ) (h : 1 ≤ L) : convOutShape L 1 0 1 1 = .ok L := by
  simp only [convOutShape]
  rw [if_neg (by push_cast; omega)]
  congr 1
  push_cast
  omega

theorem conv1dShape_ok (ic oc k p d s B L L2 : ℕ)
    (h : convOutShape L k p d s = .ok L2) :
    conv1dShape ic oc k p d s ⟨B, ic, L⟩ = .ok ⟨B, oc, L2⟩ := by
  simp [conv1dShape, h]

theorem convBR1dShape_ok (ic oc k p d s B L L2 : ℕ)
    (h : convOutShape L k p d s = .ok L2) :
    convBR1dShape ic oc k p d s ⟨B, ic, L⟩ = .ok ⟨B, oc, L2⟩ := by
  simp [convBR1dShape, conv1dShape_ok ic oc k p d s B L L2 h, batchNorm1dShape]

theorem pool1Shape_22 (B C L : ℕ) (h : 2 ≤ L) :
    pool1Shape 2 2 ⟨B, C, L⟩ = .ok ⟨B, C, L / 2⟩ := by
  simp only [pool1Shape]
  rw [if_pos (by omega)]
  congr 2
  omega

theorem broadcastNat_self (a : ℕ) : broadcastNat a a = .ok a := by
  simp [broadcastNat]

theorem broadcastNat_one_right (a : ℕ) : broadcastNat a 1 = .ok a := by
  by_cases h : a = 1
  · subst h; simp [broadcastNat]
  · simp [broadcastNat, h]

theorem broadcastNat_one_left (a : ℕ) : broadcastNat 1 a = .ok a := by
  by_cases h : a = 1
  · subst h; simp [broadcastNat]
  · simp [broadcastNat, h]

theorem broadcastBin1Shape_same (t : S1) : broadcastBin1Shape t t = .ok t := by
  simp [broadcastBin1Shape, broadcastNat_self]

theorem broadcastBin1Shape_len1 (B C L : ℕ) :
    broadcastBin1Shape ⟨B, C, L⟩ ⟨B, C, 1⟩ = .ok ⟨B, C, L⟩ := by
  simp [broadcastBin1Shape, broadcastNat_self, broadcastNat_one_right]

theorem broadcastBin1Shape_ch1 (B C L : ℕ) :
    broadcastBin1Shape ⟨B, C, L⟩ ⟨B, 1, L⟩ = .ok ⟨B, C, L⟩ := by
  simp [broadcastBin1Shape, broadcastNat_self, broadcastNat_one_right]

theorem sse1dShape_ok (ic B L : ℕ) (h : 1 ≤ L) :
    sse1dShape ic ⟨B, ic, L⟩ = .ok ⟨B, ic, L⟩ := by
  simp [sse1dShape, conv1dShape_ok ic 1 1 0 1 1 B L L (convOutShape_10 L h),
    broadcastBin1Shape_ch1]

theorem cse1dShape_ok (ic mid B L : ℕ) (h : 1 ≤ L) :
    cse1dShape ic mid ⟨B, ic, L⟩ = .ok ⟨B, ic, L⟩ := by
  simp [cse1dShape, adaptiveAvgPool1Shape, h,
    conv1dShape_ok ic mid 1 0 1 1 B 1 1 (convOutShape_10 1 (by omega)),
    conv1dShape_ok mid ic 1 0 1 1 B 1 1 (convOutShape_10 1 (by omega)),
    broadcastBin1Shape_len1]

theorem scse1dShape_ok (ic mid B L : ℕ) (h : 1 ≤ L) :
    scse1dShape ic mid ⟨B, ic, L⟩ = .ok ⟨B, ic, L⟩ := by
  simp [scse1dShape, cse1dShape_ok ic mid B L h, sse1dShape_ok ic B L h,
    broadcastBin1Shape_same]

theorem bottleneck1dShape_s2 (ic oc red B L : ℕ) (h : 2 ≤ L) :
    bottleneck1dShape ic oc 2 red true ⟨B, ic, L⟩ = .ok ⟨B, oc, L / 2⟩ := by
  have h2 : 1 ≤ L / 2 := by omega
  simp [bottleneck1dShape,
    convBR1dShape_ok ic oc 3 1 1 1 B L L (convOutShape_33_1 L (by omega)),
    convBR1dShape_ok oc oc 3 1 1 1 B L L (convOutShape_33_1 L (by omega)),
    pool1Shape_22 B oc L h, pool1Shape_22 B ic L h,
    scse1dShape_ok oc (oc / red) B (L / 2) h2,
    convBR1dShape_ok ic oc 1 0 1 1 B (L / 2) (L / 2) (convOutShape_10 (L / 2) h2),
    broadcastBin1Shape_same]

theorem bottleneck1dShape_s1 (c red B L : ℕ) (h : 1 ≤ L) :
    bottleneck1dShape c c 1 red false ⟨B, c, L⟩ = .ok ⟨B, c, L⟩ := by
  simp [bottleneck1dShape,
    convBR1dShape_ok c c 3 1 1 1 B L L (convOutShape_33_1 L h),
    scse1dShape_ok c (c / red) B L h, broadcastBin1Shape_same]

theorem up1dAlign_ok (t : S1) (L : ℕ) : up1dAlign t L = .ok ⟨t.batch, t.ch, L⟩ := by
  simp only [up1dAlign, pad1Shape]
  generalize Int.fdiv ((L : ℤ) - (t.len : ℤ)) 2 = q
  rw [if_neg (by omega)]
  simp only [Except.ok.injEq, S1.mk.injEq]
  refine ⟨trivial, trivial, ?_⟩
  omega

theorem up1dShape_ok (ic oc B l1 l2 : ℕ) (h1 : 1 ≤ l1) (h2 : 1 ≤ l2) :
    up1dShape ic oc false true ⟨B, ic, l1⟩ ⟨B, oc, l2⟩ = .ok ⟨B, oc, l2⟩ := by
  have hcat : cat1Shape ⟨B, oc, l2⟩ ⟨B, ic, l2⟩ = .ok ⟨B, oc + ic, l2⟩ := by
    simp [cat1Shape]
  have hconv : convBR1dShape (ic + oc) oc 3 1 1 1 ⟨B, oc + ic, l2⟩ = .ok ⟨B, oc, l2⟩ := by
    rw [Nat.add_comm oc ic]
    exact convBR1dShape_ok (ic + oc) oc 3 1 1 1 B l2 l2 (convOutShape_33_1 l2 h2)
  simp [up1dShape, convT1dShape, h1, up1dAlign_ok, hcat, hconv,
    convBR1dShape_ok oc oc 3 1 1 1 B l2 l2 (convOutShape_33_1 l2 h2)]

theorem unet1dShape_ok (ic oc B L : ℕ) (h : 14 ≤ L) :
    unet1dShape ic oc ⟨B, ic, L⟩ = .ok ⟨B, oc, L⟩ := by
  have h0 := conv1dShape_ok ic 128 3 2 1 1 B L (L + 2) (convOutShape_32 L)
  have hd1 := bottleneck1dShape_s2 128 256 16 B (L + 2) (by omega)
  have hd2 := bottleneck1dShape_s2 256 512 16 B ((L + 2) / 2) (by omega)
  rw [show (L + 2) / 2 / 2 = (L + 2) / 4 by omega] at hd2
  have hd3 := bottleneck1dShape_s2 512 1024 16 B ((L + 2) / 4) (by omega)
  rw [show (L + 2) / 4 / 2 = (L + 2) / 8 by omega] at hd3
  have hd4 := bottleneck1dShape_s2 1024 2048 16 B ((L + 2) / 8) (by omega)
  rw [show (L + 2) / 8 / 2 = (L + 2) / 16 by omega] at hd4
  have hc := bottleneck1dShape_s1 2048 16 B ((L + 2) / 16) (by omega)
  have hu4 := up1dShape_ok 2048 1024 B ((L + 2) / 16) ((L + 2) / 8) (by omega) (by omega)
  have hu3 := up1dShape_ok 1024 512 B ((L + 2) / 8) ((L + 2) / 4) (by omega) (by omega)
  have hu2 := up1dShape_ok 512 256 B ((L + 2) / 4) ((L + 2) / 2) (by omega) (by omega)
  have hu1 := up1dShape_ok 256 128 B ((L + 2) / 2) (L + 2) (by omega) (by omega)
  have hout := conv1dShape_ok 128 oc 3 0 1 1 B (L + 2) (L + 2 - 2)
    (convOutShape_30 (L + 2) (by omega))
  rw [show L + 2 - 2 = L by omega] at hout
  simp only [unet1dShape, down1dShape, h0, hd1, hd2, hd3, hd4, hc, hu4, hu3, hu2, hu1,
    hout, ok_bind]

theorem conv2dShape_ok (ic oc k p d s B H W H2 W2 : ℕ)
    (hh : convOutShape H k p d s = .ok H2) (hw : convOutShape W k p d s = .ok W2) :
    conv2dShape ic oc k p d s ⟨B, ic, H, W⟩ = .ok ⟨B, oc, H2, W2⟩ := by
  simp [conv2dShape, hh, hw]

theorem convBR2dShape_ok (ic oc k p d s B H W H2 W2 : ℕ)
    (hh : convOutShape H k p d s = .ok H2) (hw : convOutShape W k p d s = .ok W2) :
    convBR2dShape ic oc k p d s ⟨B, ic, H, W⟩ = .ok ⟨B, oc, H2, W2⟩ := by
  simp [convBR2dShape, conv2dShape_ok ic oc k p d s B H W H2 W2 hh hw, batchNorm2dShape]

theorem pool2Shape_22 (B C H W : ℕ) (hh : 2 ≤ H) (hw : 2 ≤ W) :
    pool2Shape 2 2 ⟨B, C, H, W⟩ = .ok ⟨B, C, H / 2, W / 2⟩ := by
  simp only [pool2Shape]
  rw [if_pos (by exact ⟨hh, hw⟩)]
  simp only [Except.ok.injEq, S2.mk.injEq]
  refine ⟨trivial, trivial, by omega, by omega⟩

theorem broadcastBin2Shape_same (t : S2) : broadcastBin2Shape t t = .ok t := by
  simp [broadcastBin2Shape, broadcastNat_self]

theorem broadcastBin2Shape_hw1 (B C H W : ℕ) :
    broadcastBin2Shape ⟨B, C, H, W⟩ ⟨B, C, 1, 1⟩ = .ok ⟨B, C, H, W⟩ := by
  simp [broadcastBin2Shape, broadcastNat_self, broadcastNat_one_right]

theorem cse2dShape_ok (ic mid B H W : ℕ) (hh : 1 ≤ H) (hw : 1 ≤ W) :
    cse2dShape ic mid ⟨B, ic, H, W⟩ = .ok ⟨B, ic, H, W⟩ := by
  simp [cse2dShape, adaptiveAvgPool2Shape, hh, hw,
    conv2dShape_ok ic mid 1 0 1 1 B 1 1 1 1 (convOutShape_10 1 (by omega))
      (convOutShape_10 1 (by omega)),
    conv2dShape_ok mid ic 1 0 1 1 B 1 1 1 1 (convOutShape_10 1 (by omega))
      (convOutShape_10 1 (by omega)),
    broadcastBin2Shape_hw1]

theorem bottleneck2dShape_s1_short (ic oc red B H W : ℕ) (hh : 1 ≤ H) (hw : 1 ≤ W) :
    bottleneck2dShape ic oc 1 red 1 1 true ⟨B, ic, H, W⟩ = .ok ⟨B, oc, H, W⟩ := by
  simp [bottleneck2dShape,
    convBR2dShape_ok ic oc 3 1 1 1 B H W H W (convOutShape_33_1 H hh) (convOutShape_33_1 W hw),
    cse2dShape_ok oc (oc / red) B H W hh hw,
    convBR2dShape_ok ic oc 1 0 1 1 B H W H W (convOutShape_10 H hh) (convOutShape_10 W hw),
    broadcastBin2Shape_same]

theorem bottleneck2dShape_s1_noshort (c red B H W : ℕ) (hh : 1 ≤ H) (hw : 1 ≤ W) :
    bottleneck2dShape c c 1 red 1 1 false ⟨B, c, H, W⟩ = .ok ⟨B, c, H, W⟩ := by
  simp [bottleneck2dShape,
    convBR2dShape_ok c c 3 1 1 1 B H W H W (convOutShape_33_1 H hh) (convOutShape_33_1 W hw),
    cse2dShape_ok c (c / red) B H W hh hw, broadcastBin2Shape_same]

theorem bottleneck2dShape_s2_short (ic oc red B H W : ℕ) (hh : 2 ≤ H) (hw : 2 ≤ W) :
    bottleneck2dShape ic oc 2 red 1 1 true ⟨B, ic, H, W⟩ = .ok ⟨B, oc, H / 2, W / 2⟩ := by
  simp [bottleneck2dShape,
    convBR2dShape_ok ic oc 3 1 1 1 B H W H W (convOutShape_33_1 H (by omega))
      (convOutShape_33_1 W (by omega)),
    pool2Shape_22 B oc H W hh hw, pool2Shape_22 B ic H W hh hw,
    cse2dShape_ok oc (oc / red) B (H / 2) (W / 2) (by omega) (by omega),
    convBR2dShape_ok ic oc 1 0 1 1 B (H / 2) (W / 2) (H / 2) (W / 2)
      (convOutShape_10 (H / 2) (by omega)) (convOutShape_10 (W / 2) (by omega)),
    broadcastBin2Shape_same]

theorem down2dShape_ok (ic oc B H W : ℕ) (hh : 2 ≤ H) (hw : 2 ≤ W) :
    down2dShape ic oc ⟨B, ic, H, W⟩ = .ok ⟨B, oc, H / 2, W / 2⟩ := by
  simp only [down2dShape, bottleneck2dShape_s2_short ic oc 4 B H W hh hw, ok_bind,
    bottleneck2dShape_s1_noshort oc 4 B (H / 2) (W / 2) (by omega) (by omega)]

theorem up2dAlign_ok_w (B C h w tw : ℕ) (hw : tw = w ∨ tw = w + 1) :
    up2dAlign ⟨B, C, h, w⟩ h tw = .ok ⟨B, C, h, tw⟩ := by
  simp only [up2dAlign, pad2LastShape]
  rw [Int.fdiv_eq_ediv _ (by decide), Int.fdiv_eq_ediv _ (by decide)]
  rw [if_neg (by omega)]
  rw [Except.ok.injEq, S2.mk.injEq]
  refine ⟨rfl, rfl, rfl, by omega⟩

theorem up2dAlign_h_off (B C h w tw : ℕ) (hw : tw = w ∨ tw = w + 1) :
    up2dAlign ⟨B, C, h, w⟩ (h + 1) tw = .ok ⟨B, C, h, tw + 1⟩ := by
  simp only [up2dAlign, pad2LastShape]
  rw [Int.fdiv_eq_ediv _ (by decide), Int.fdiv_eq_ediv _ (by decide)]
  rw [if_neg (by omega)]
  rw [Except.ok.injEq, S2.mk.injEq]
  refine ⟨rfl, rfl, rfl, by omega⟩

theorem up2dShape_ok_w (ic oc B h1 w1 w2 : ℕ) (hh : 1 ≤ h1) (hw : 1 ≤ w1)
    (hw2 : w2 = 2 * w1 ∨ w2 = 2 * w1 + 1) :
    up2dShape ic oc true true ⟨B, ic, h1, w1⟩ ⟨B, oc, 2 * h1, w2⟩ =
      .ok ⟨B, oc, 2 * h1, w2⟩ := by
  have halign := up2dAlign_ok_w B ic (2 * h1) (2 * w1) w2 hw2
  have hcat : cat2Shape ⟨B, oc, 2 * h1, w2⟩ ⟨B, ic, 2 * h1, w2⟩ =
      .ok ⟨B, oc + ic, 2 * h1, w2⟩ := by simp [cat2Shape]
  have hconv : convBR2dShape (ic + oc) ic 3 1 1 1 ⟨B, oc + ic, 2 * h1, w2⟩ =
      .ok ⟨B, ic, 2 * h1, w2⟩ := by
    rw [Nat.add_comm oc ic]
    exact convBR2dShape_ok (ic + oc) ic 3 1 1 1 B (2 * h1) w2 (2 * h1) w2
      (convOutShape_33_1 (2 * h1) (by omega)) (convOutShape_33_1 w2 (by omega))
  simp only [up2dShape, upsample2Shape, ok_bind, halign, hcat, hconv, if_pos, ite_true,
    bottleneck2dShape_s1_short ic oc 4 B (2 * h1) w2 (by omega) (by omega)]

theorem up2dShape_err_h (ic oc B h1 w1 w2 : ℕ)
    (hw2 : w2 = 2 * w1 ∨ w2 = 2 * w1 + 1) :
    up2dShape ic oc true true ⟨B, ic, h1, w1⟩ ⟨B, oc, 2 * h1 + 1, w2⟩ =
      .error .sizeMismatch := by
  have halign := up2dAlign_h_off B ic (2 * h1) (2 * w1) w2 hw2
  have hcat : cat2Shape ⟨B, oc, 2 * h1 + 1, w2⟩ ⟨B, ic, 2 * h1, w2 + 1⟩ =
      .error .sizeMismatch := by
    simp only [cat2Shape]
    rw [if_neg (by omega)]
  simp only [up2dShape, upsample2Shape, ok_bind, halign, hcat, if_pos, ite_true,
    error_bind]

theorem convOutShape_30micro (L : ℕ) (h : 1 ≤ L) : convOutShape (L + 2) 3 0 1 1 = .ok L := by
  have := convOutShape_30 (L + 2) (by omega)
  rwa [show L + 2 - 2 = L by omega] at this

theorem convT2dShape_52 (ic oc B H W : ℕ) (hh : 1 ≤ H) (hw : 1 ≤ W) :
    convT2dShape ic oc 5 1 2 ⟨B, ic, H, W⟩ = .ok ⟨B, oc, H, W⟩ := by
  simp only [convT2dShape, if_true]
  rw [if_neg (by push_cast; omega)]
  simp only [Except.ok.injEq, S2.mk.injEq]
  refine ⟨trivial, trivial, by push_cast; omega, by push_cast; omega⟩

theorem convT2dShape_30 (ic oc B H W : ℕ) :
    convT2dShape ic oc 3 1 0 ⟨B, ic, H, W⟩ = .ok ⟨B, oc, H + 2, W + 2⟩ := by
  simp only [convT2dShape, if_true]
  rw [if_neg (by push_cast; omega)]
  simp only [Except.ok.injEq, S2.mk.injEq]
  refine ⟨trivial, trivial, by push_cast; omega, by push_cast; omega⟩

theorem micro2dShape_ok (B H W : ℕ) (hh : 1 ≤ H) (hw : 1 ≤ W) :
    micro2dShape B H W = .ok (B, H, W) := by
  simp only [micro2dShape,
    conv2dShape_ok 1 128 5 2 1 1 B H W H W (convOutShape_52 H hh) (convOutShape_52 W hw),
    ok_bind,
    conv2dShape_ok 128 128 3 1 1 1 B H W H W (convOutShape_33_1 H hh) (convOutShape_33_1 W hw),
    convT2dShape_52 128 128 B H W hh hw,
    convT2dShape_30 128 128 B H W,
    conv2dShape_ok 128 1 3 0 1 1 B (H + 2) (W + 2) H W (convOutShape_30micro H hh)
      (convOutShape_30micro W hw)]
  rw [if_pos (by ring)]
  rfl

theorem resNext2dShape_ok (B H W : ℕ) (hh : 1 ≤ H) (hw : 1 ≤ W) :
    resNext2dShape B H W = .ok (B, H, W) := by
  simp only [resNext2dShape,
    convBR2dShape_ok 1 128 5 2 1 1 B H W H W (convOutShape_52 H hh) (convOutShape_52 W hw),
    ok_bind,
    convBR2dShape_ok 128 128 3 1 1 1 B H W H W (convOutShape_33_1 H hh)
      (convOutShape_33_1 W hw),
    bottleneck2dShape_s1_short 128 256 4 B H W hh hw,
    bottleneck2dShape_s1_short 256 512 4 B H W hh hw,
    conv2dShape_ok 512 1 1 0 1 1 B H W H W (convOutShape_10 H hh) (convOutShape_10 W hw),
    broadcastBin2Shape_same]
  rw [if_pos (by ring)]
  rfl

theorem unet2dShape_ok_div8 (B H W : ℕ) (hd : 8 ∣ H) (hH : 8 ≤ H) (hW : 8 ≤ W) :
    unet2dShape B H W = .ok (B, H, W) := by
  have h0 := conv2dShape_ok 1 16 3 1 1 1 B H W H W (convOutShape_33_1 H (by omega))
    (convOutShape_33_1 W (by omega))
  have hd1 := down2dShape_ok 16 32 B H W (by omega) (by omega)
  have hd2 := down2dShape_ok 32 64 B (H / 2) (W / 2) (by omega) (by omega)
  rw [show H / 2 / 2 = H / 4 by omega, show W / 2 / 2 = W / 4 by omega] at hd2
  have hd3 := down2dShape_ok 64 128 B (H / 4) (W / 4) (by omega) (by omega)
  rw [show H / 4 / 2 = H / 8 by omega, show W / 4 / 2 = W / 8 by omega] at hd3
  have hu3 := up2dShape_ok_w 128 64 B (H / 8) (W / 8) (W / 4) (by omega) (by omega)
    (by omega)
  rw [show 2 * (H / 8) = H / 4 by omega] at hu3
  have hu2 := up2dShape_ok_w 64 32 B (H / 4) (W / 4) (W / 2) (by omega) (by omega)
    (by omega)
  rw [show 2 * (H / 4) = H / 2 by omega] at hu2
  have hu1 := up2dShape_ok_w 32 16 B (H / 2) (W / 2) W (by omega) (by omega) (by omega)
  rw [show 2 * (H / 2) = H by omega] at hu1
  have hout1 := bottleneck2dShape_s1_short 16 16 4 B H W (by omega) (by omega)
  have hout2 := conv2dShape_ok 16 1 1 0 1 1 B H W H W (convOutShape_10 H (by omega))
    (convOutShape_10 W (by omega))
  have hadd : broadcastBin2Shape ⟨B, 1, H, W⟩ ⟨B, 1, H, W⟩ = .ok ⟨B, 1, H, W⟩ :=
    broadcastBin2Shape_same _
  simp only [unet2dShape, h0, ok_bind, hd1, hd2, hd3, hu3, hu2, hu1, hout1, hout2, hadd]
  rw [if_pos (by ring)]
  rfl

theorem unet2dShape_err_nondiv8 (B H W : ℕ) (hH : 8 ≤ H) (hW : 8 ≤ W)
    (hnd : ¬ (8 ∣ H)) : unet2dShape B H W = .error .sizeMismatch := by
  have h0 := conv2dShape_ok 1 16 3 1 1 1 B H W H W (convOutShape_33_1 H (by omega))
    (convOutShape_33_1 W (by omega))
  have hd1 := down2dShape_ok 16 32 B H W (by omega) (by omega)
  have hd2 := down2dShape_ok 32 64 B (H / 2) (W / 2) (by omega) (by omega)
  rw [show H / 2 / 2 = H / 4 by omega, show W / 2 / 2 = W / 4 by omega] at hd2
  have hd3 := down2dShape_ok 64 128 B (H / 4) (W / 4) (by omega) (by omega)
  rw [show H / 4 / 2 = H / 8 by omega, show W / 4 / 2 = W / 8 by omega] at hd3
  by_cases c3 : H / 4 = 2 * (H / 8)
  · by_cases c2 : H / 2 = 2 * (H / 4)
    · have hu3 := up2dShape_ok_w 128 64 B (H / 8) (W / 8) (W / 4) (by omega) (by omega)
        (by omega)
      rw [show 2 * (H / 8) = H / 4 by omega] at hu3
      have hu2 := up2dShape_ok_w 64 32 B (H / 4) (W / 4) (W / 2) (by omega) (by omega)
        (by omega)
      rw [show 2 * (H / 4) = H / 2 by omega] at hu2
      have hu1 := up2dShape_err_h 32 16 B (H / 2) (W / 2) W (by omega)
      rw [show 2 * (H / 2) + 1 = H by omega] at hu1
      simp only [unet2dShape, h0, ok_bind, hd1, hd2, hd3, hu3, hu2, hu1, error_bind]
    · have hu3 := up2dShape_ok_w 128 64 B (H / 8) (W / 8) (W / 4) (by omega) (by omega)
        (by omega)
      rw [show 2 * (H / 8) = H / 4 by omega] at hu3
      have hu2 := up2dShape_err_h 64 32 B (H / 4) (W / 4) (W / 2) (by omega)
      rw [show 2 * (H / 4) + 1 = H / 2 by omega] at hu2
      simp only [unet2dShape, h0, ok_bind, hd1, hd2, hd3, hu3, hu2, error_bind]
  · have hu3 := up2dShape_err_h 128 64 B (H / 8) (W / 8) (W / 4) (by omega)
    rw [show 2 * (H / 8) + 1 = H / 4 by omega] at hu3
    simp only [unet2dShape, h0, ok_bind, hd1, hd2, hd3, hu3, error_bind]

theorem addB2_data_of_ne (A B : T2) (c i j : ℕ) (h1 : A.ch ≠ 1) (h2 : A.h ≠ 1)
    (h3 : A.w ≠ 1) (h4 : B.ch ≠ 1) (h5 : B.h ≠ 1) (h6 : B.w ≠ 1) :
    (addB2 A B).data c i j = A.data c i j + B.data c i j := by
  simp [addB2, h1, h2, h3, h4, h5, h6]

theorem addB1_data_of_ne (A B : T1) (c l : ℕ) (h1 : A.ch ≠ 1) (h2 : A.len ≠ 1)
    (h3 : B.ch ≠ 1) (h4 : B.len ≠ 1) :
    (addB1 A B).data c l = A.data c l + B.data c l := by
  simp [addB1, h1, h2, h3, h4]

theorem cse2d_ch_le (m : CSE2d) (P : Prims) (x : T2) : x.ch ≤ (m.forward P x).ch :=
  le_max_left _ _

theorem cse2d_h_le (m : CSE2d) (P : Prims) (x : T2) : x.h ≤ (m.forward P x).h :=
  le_max_left _ _

theorem cse2d_w_le (m : CSE2d) (P : Prims) (x : T2) : x.w ≤ (m.forward P x).w :=
  le_max_left _ _

theorem sse2d_ch_le (m : SSE2d) (P : Prims) (x : T2) : x.ch ≤ (m.forward P x).ch :=
  le_max_left _ _

theorem sse2d_h_le (m : SSE2d) (P : Prims) (x : T2) : x.h ≤ (m.forward P x).h :=
  le_max_left _ _

theorem sse2d_w_le (m : SSE2d) (P : Prims) (x : T2) : x.w ≤ (m.forward P x).w :=
  le_max_left _ _

theorem cse1d_ch_le (m : CSE1d) (P : Prims) (x : T1) : x.ch ≤ (m.forward P x).ch :=
  le_max_left _ _

theorem cse1d_len_le (m : CSE1d) (P : Prims) (x : T1) : x.len ≤ (m.forward P x).len :=
  le_max_left _ _

theorem sse1d_ch_le (m : SSE1d) (P : Prims) (x : T1) : x.ch ≤ (m.forward P x).ch :=
  le_max_left _ _

theorem sse1d_len_le (m : SSE1d) (P : Prims) (x : T1) : x.len ≤ (m.forward P x).len :=
  le_max_left _ _

/-- C1: in SENextBottleneck2d.forward the residual branch applies conv2 to the
original input x (the conv1 result is computed and immediately overwritten, so
the output is invariant under replacing conv1), while in SENextBottleneck1d
the residual branch is the chained composition conv2 (conv1 x); this holds for
every input tensor and every constructor configuration. -/
theorem c1_residual_branch_conv2 :
    (∀ (P : Prims) (m : SENextBottleneck2d) (c : ConvBR2d) (x : T2),
        SENextBottleneck2d.forward { m with conv1 := c } P x =
          SENextBottleneck2d.forward m P x) ∧
    (∀ (P : Prims) (m : SENextBottleneck2d) (x : T2),
        m.forward P x =
          relu2 (addB2
            (if m.is_shortcut then
              m.shortcut.forward (if 1 < m.stride then avgPool2 m.stride m.stride x else x)
            else x)
            (m.se.forward P
              (if 1 < m.stride then pool2 m.poolKind m.stride m.stride (m.conv2.forward x)
              else m.conv2.forward x)))) ∧
    (∀ (P : Prims) (m : SENextBottleneck1d) (x : T1),
        m.forward P x =
          relu1 (addB1
            (if m.is_shortcut then
              m.shortcut.forward (if 1 < m.stride then avgPool1 m.stride m.stride x else x)
            else x)
            (m.se.forward P
              (if 1 < m.stride then
                pool1 m.poolKind m.stride m.stride (m.conv2.forward (m.conv1.forward x))
              else m.conv2.forward (m.conv1.forward x))))) :=
  ⟨fun _ _ _ _ => rfl, fun _ _ _ => rfl, fun _ _ _ => rfl⟩

/-- C2: in UNet1d.forward the decoder stages receive the original encoder
outputs, so the up4, up3 and up2 results are discarded: the tensor passed to
outc is up1 (n1, n0), and the whole output is invariant under replacing down2,
down3, down4, center, up4, up3 and up2. -/
theorem c2_unet1d_decoder_discarded :
    (∀ (P : Prims) (m : UNet1d) (x : T1),
        m.forward P x =
          hardtanh1 (1 / 10000000000) 1
            (m.outc.apply
              (m.up1.forward ((m.down1.forward P (m.inc.apply x))) (m.inc.apply x)))) ∧
    (∀ (P : Prims) (m : UNet1d) (d2 d3 d4 ce : SENextBottleneck1d) (u4 u3 u2 : Up1d)
        (x : T1),
        UNet1d.forward
          { m with down2 := d2, down3 := d3, down4 := d4, center := ce,
                   up4 := u4, up3 := u3, up2 := u2 } P x =
          UNet1d.forward m P x) :=
  ⟨fun _ _ _ => rfl, fun _ _ _ _ _ _ _ _ _ _ => rfl⟩

/-- C10: every entry of the output of SENextBottleneck2d.forward and of
SENextBottleneck1d.forward is non-negative, for every parameter set and every
input, because each block ends with the rectified-linear activation applied to
the shortcut-plus-gated-branch sum. -/
theorem c10_bottleneck_output_nonneg :
    ∀ (P : Prims) (m2 : SENextBottleneck2d) (x2 : T2) (m1 : SENextBottleneck1d) (x1 : T1)
      (c i j l : ℕ),
      0 ≤ (m2.forward P x2).data c i j ∧ 0 ≤ (m1.forward P x1).data c l := by
  intro P m2 x2 m1 x1 c i j l
  constructor
  · show (0 : ℚ) ≤ max 0 _
    exact le_max_left _ _
  · show (0 : ℚ) ≤ max 0 _
    exact le_max_left _ _

/-- C8: SCSE2d (x) is CSE2d (x) + SSE2d (x) and SCSE1d (x) is CSE1d (x) +
SSE1d (x), with the shared submodule parameters: the combination is the
broadcast elementwise sum of the two gate outputs (stated both as tensor
equations and entrywise on inputs whose axes all exceed 1). -/
theorem c8_scse_is_sum_of_cse_and_sse :
    (∀ (m : SCSE2d) (P : Prims) (x : T2),
        m.forward P x = addB2 (m.c_se.forward P x) (m.s_se.forward P x)) ∧
    (∀ (m : SCSE2d) (P : Prims) (x : T2) (c i j : ℕ),
        2 ≤ x.ch → 2 ≤ x.h → 2 ≤ x.w →
        (m.forward P x).data c i j =
          (m.c_se.forward P x).data c i j + (m.s_se.forward P x).data c i j) ∧
    (∀ (m : SCSE1d) (P : Prims) (x : T1),
        m.forward P x = addB1 (m.c_se.forward P x) (m.s_se.forward P x)) ∧
    (∀ (m : SCSE1d) (P : Prims) (x : T1) (c l : ℕ),
        2 ≤ x.ch → 2 ≤ x.len →
        (m.forward P x).data c l =
          (m.c_se.forward P x).data c l + (m.s_se.forward P x).data c l) := by
  refine ⟨fun _ _ _ => rfl, ?_, fun _ _ _ => rfl, ?_⟩
  · intro m P x c i j h1 h2 h3
    have a1 := cse2d_ch_le m.c_se P x
    have a2 := cse2d_h_le m.c_se P x
    have a3 := cse2d_w_le m.c_se P x
    have b1 := sse2d_ch_le m.s_se P x
    have b2 := sse2d_h_le m.s_se P x
    have b3 := sse2d_w_le m.s_se P x
    exact addB2_data_of_ne _ _ c i j (by omega) (by omega) (by omega) (by omega)
      (by omega) (by omega)
  · intro m P x c l h1 h2
    have a1 := cse1d_ch_le m.c_se P x
    have a2 := cse1d_len_le m.c_se P x
    have b1 := sse1d_ch_le m.s_se P x
    have b2 := sse1d_len_le m.s_se P x
    exact addB1_data_of_ne _ _ c l (by omega) (by omega) (by omega) (by omega)

/-- C8 witness: the entrywise parts instantiated at zero-weight modules and a
constant input of size 2 by 2 (by 2). -/
theorem c8_witness :
    ((⟨⟨⟨2, 1, 1, 0, 1, 1, fun _ _ _ _ => 0, fun _ => 0⟩,
        ⟨1, 2, 1, 0, 1, 1, fun _ _ _ _ => 0, fun _ => 0⟩⟩,
       ⟨⟨2, 1, 1, 0, 1, 1, fun _ _ _ _ => 0, fun _ => 0⟩⟩⟩ : SCSE2d).forward
        ⟨fun q => q, fun q => q, fun q => q⟩ ⟨2, 2, 2, fun _ _ _ => 1⟩).data 0 0 0 =
      ((⟨⟨2, 1, 1, 0, 1, 1, fun _ _ _ _ => 0, fun _ => 0⟩,
         ⟨1, 2, 1, 0, 1, 1, fun _ _ _ _ => 0, fun _ => 0⟩⟩ : CSE2d).forward
          ⟨fun q => q, fun q => q, fun q => q⟩ ⟨2, 2, 2, fun _ _ _ => 1⟩).data 0 0 0 +
      ((⟨⟨2, 1, 1, 0, 1, 1, fun _ _ _ _ => 0, fun _ => 0⟩⟩ : SSE2d).forward
          ⟨fun q => q, fun q => q, fun q => q⟩ ⟨2, 2, 2, fun _ _ _ => 1⟩).data 0 0 0 :=
  c8_scse_is_sum_of_cse_and_sse.2.1 _ _ _ 0 0 0 (by decide) (by decide) (by decide)

/-- C9: FocalLoss computes alpha times (1 - exp (-BCE)) to the gamma times BCE
elementwise, returns the elementwise tensor when reduce is false and the mean
when reduce is true; and with gamma 0, alpha 1 and reduce true it equals the
mean binary cross entropy of (inputs, targets), for all inputs and targets. -/
theorem c9_focal_loss_formula :
    (∀ (m : FocalLoss) (P : Prims) (x t : T1), m.reduce = false →
        m.forward P x t =
          Sum.inr ⟨x.ch, x.len, fun c l =>
            m.alpha * (1 - P.exp (-(bceData P x t c l))) ^ m.gamma * bceData P x t c l⟩) ∧
    (∀ (m : FocalLoss) (P : Prims) (x t : T1), m.reduce = true →
        m.forward P x t =
          Sum.inl (t1mean ⟨x.ch, x.len, fun c l =>
            m.alpha * (1 - P.exp (-(bceData P x t c l))) ^ m.gamma * bceData P x t c l⟩)) ∧
    (∀ (P : Prims) (x t : T1),
        FocalLoss.forward ⟨1, 0, true⟩ P x t = Sum.inl (binaryCrossEntropyMean P x t)) := by
  refine ⟨?_, ?_, ?_⟩
  · intro m P x t h
    obtain ⟨a, g, r⟩ := m
    cases h
    rfl
  · intro m P x t h
    obtain ⟨a, g, r⟩ := m
    cases h
    rfl
  · intro P x t
    have hd : (⟨x.ch, x.len, fun c l =>
        (1 : ℚ) * (1 - P.exp (-(bceData P x t c l))) ^ (0 : ℕ) * bceData P x t c l⟩ : T1) =
        binaryCrossEntropyNone P x t := by
      unfold binaryCrossEntropyNone
      congr 1
      funext c l
      rw [pow_zero, mul_one, one_mul]
    show Sum.inl (t1mean ⟨x.ch, x.len, fun c l =>
        (1 : ℚ) * (1 - P.exp (-(bceData P x t c l))) ^ (0 : ℕ) * bceData P x t c l⟩) =
      Sum.inl (t1mean (binaryCrossEntropyNone P x t))
    rw [hd]

/-- C9 witness: the reduced and unreduced branches and the gamma-0 alpha-1
instance evaluated at a concrete half-valued input with identity primitives. -/
theorem c9_witness :
    FocalLoss.forward ⟨1, 0, true⟩ ⟨fun q => q, fun q => q, fun q => q⟩
        ⟨1, 1, fun _ _ => 1 / 2⟩ ⟨1, 1, fun _ _ => 1 / 2⟩ =
      Sum.inl (binaryCrossEntropyMean ⟨fun q => q, fun q => q, fun q => q⟩
        ⟨1, 1, fun _ _ => 1 / 2⟩ ⟨1, 1, fun _ _ => 1 / 2⟩) ∧
    FocalLoss.forward ⟨1, 2, false⟩ ⟨fun q => q, fun q => q, fun q => q⟩
        ⟨1, 1, fun _ _ => 1 / 2⟩ ⟨1, 1, fun _ _ => 1 / 2⟩ =
      Sum.inr ⟨1, 1, fun c l =>
        (1 : ℚ) * (1 - (fun q : ℚ => q) (-(bceData ⟨fun q => q, fun q => q, fun q => q⟩
          ⟨1, 1, fun _ _ => 1 / 2⟩ ⟨1, 1, fun _ _ => 1 / 2⟩ c l))) ^ (2 : ℕ) *
          bceData ⟨fun q => q, fun q => q, fun q => q⟩ ⟨1, 1, fun _ _ => 1 / 2⟩
            ⟨1, 1, fun _ _ => 1 / 2⟩ c l⟩ :=
  ⟨c9_focal_loss_formula.2.2 _ _ _,
   c9_focal_loss_formula.1 ⟨1, 2, false⟩ _ _ _ rfl⟩

/-- C3 counterexample: in Up2d.forward the pad tuple has two entries, so torch
pads only the width; with an upsampled x1 of spatial size (2, 4) and a skip
x2 of size (3, 4), the reconciliation returns size (2, 5), not x2's (3, 4),
refuting the claim that the 2-D pad always matches x2's height and width. -/
theorem c3_counterexample :
    up2dAlign ⟨1, 16, 2, 4⟩ 3 4 = .ok ⟨1, 16, 2, 5⟩ ∧
    (⟨1, 16, 2, 5⟩ : S2) ≠ (⟨1, 16, 3, 4⟩ : S2) :=
  ⟨rfl, by decide⟩

/-- C3 amended: the 1-D reconciliation always produces exactly the skip length,
including when the upsampled tensor is larger (negative diff); the 2-D
reconciliation leaves the height at x1's and sets the width to w1 plus the
ceil-halves of the height and width differences, so it matches x2's spatial
size exactly iff the heights are already equal and the width difference is 0
or 1. -/
theorem c3_theorem :
    (∀ (t : S1) (L : ℕ), up1dAlign t L = .ok ⟨t.batch, t.ch, L⟩) ∧
    (∀ (t : S2) (th tw : ℕ),
        0 ≤ (t.w : ℤ) + (((th : ℤ) - t.h) - Int.fdiv ((th : ℤ) - t.h) 2) +
          (((tw : ℤ) - t.w) - Int.fdiv ((tw : ℤ) - t.w) 2) →
        up2dAlign t th tw = .ok ⟨t.batch, t.ch, t.h,
          ((t.w : ℤ) + (((th : ℤ) - t.h) - Int.fdiv ((th : ℤ) - t.h) 2) +
            (((tw : ℤ) - t.w) - Int.fdiv ((tw : ℤ) - t.w) 2)).toNat⟩) ∧
    (∀ (t : S2) (th tw : ℕ),
        up2dAlign t th tw = .ok ⟨t.batch, t.ch, th, tw⟩ ↔
          (t.h = th ∧ (tw = t.w ∨ tw = t.w + 1))) := by
  refine ⟨up1dAlign_ok, ?_, ?_⟩
  · intro t th tw hpos
    simp only [up2dAlign, pad2LastShape]
    generalize Int.fdiv ((th : ℤ) - (t.h : ℤ)) 2 = q1 at hpos ⊢
    generalize Int.fdiv ((tw : ℤ) - (t.w : ℤ)) 2 = q2 at hpos ⊢
    rw [if_neg (by omega)]
  · intro t th tw
    constructor
    · intro h
      simp only [up2dAlign, pad2LastShape] at h
      rw [Int.fdiv_eq_ediv _ (by decide), Int.fdiv_eq_ediv _ (by decide)] at h
      split at h
      · cases h
      · rename_i hnot
        rw [Except.ok.injEq, S2.mk.injEq] at h
        obtain ⟨h1, h2, h3, h4⟩ := h
        exact ⟨h3, by omega⟩
    · intro h
      obtain ⟨h3, h4⟩ := h
      simp only [up2dAlign, pad2LastShape]
      rw [Int.fdiv_eq_ediv _ (by decide), Int.fdiv_eq_ediv _ (by decide)]
      rw [if_neg (by omega)]
      rw [Except.ok.injEq, S2.mk.injEq]
      refine ⟨rfl, rfl, h3, by omega⟩

/-- C3 witness: the 1-D reconciliation at lengths 10 to 4 (a crop), the 2-D
formula at the counterexample sizes, and a 2-D exact match at width
difference 1. -/
theorem c3_witness :
    up1dAlign ⟨1, 3, 10⟩ 4 = .ok ⟨1, 3, 4⟩ ∧
    up2dAlign ⟨1, 16, 2, 4⟩ 3 4 = .ok ⟨1, 16, 2, 5⟩ ∧
    up2dAlign ⟨1, 16, 3, 4⟩ 3 5 = .ok ⟨1, 16, 3, 5⟩ :=
  ⟨c3_theorem.1 ⟨1, 3, 10⟩ 4,
   (c3_theorem.2.1 ⟨1, 16, 2, 4⟩ 3 4 (by decide)).trans (by rfl),
   (c3_theorem.2.2 ⟨1, 16, 3, 4⟩ 3 5).mpr ⟨rfl, Or.inr rfl⟩⟩

/-- C4: UNet1d.forward does return (batch, out_channels, L) for every valid
input of length at least 14, but ResNext1d.forward never completes: its
__init__ (models.py 513-541) assigns only inc and outc, while forward
(models.py 546) reads self.bottlenecks, so after the stem convolution the
attribute lookup raises on every input; the claim that both forwards complete
on valid inputs is refuted by the code. -/
theorem c4_theorem :
    (∀ (ic oc B L : ℕ), 14 ≤ L → unet1dShape ic oc ⟨B, ic, L⟩ = .ok ⟨B, oc, L⟩) ∧
    (∀ (ic oc B L : ℕ), 1 ≤ L →
        resNext1dShape ic oc ⟨B, ic, L⟩ = .error .attrMissing) := by
  refine ⟨fun ic oc B L h => unet1dShape_ok ic oc B L h, ?_⟩
  intro ic oc B L h
  simp only [resNext1dShape,
    conv1dShape_ok ic 1024 5 2 1 1 B L L (convOutShape_52 L h), ok_bind]

/-- C4 witness: the shapes evaluated at concrete inputs. -/
theorem c4_witness :
    unet1dShape 2 3 ⟨5, 2, 16⟩ = .ok ⟨5, 3, 16⟩ ∧
    resNext1dShape 1 1 ⟨1, 1, 8⟩ = .error .attrMissing :=
  ⟨c4_theorem.1 2 3 5 16 (by decide), c4_theorem.2 1 1 1 8 (by decide)⟩

/-- C5 counterexample: UNet2d.forward fails with a concatenation size mismatch
on a (1, 12, 8) input (12 is not a multiple of 8: the decoder upsample of the
(1, 1) bottom feature map cannot be reconciled with the 3-row skip because the
pad step never fixes the height), refuting shape round-tripping for arbitrary
spatial sizes. -/
theorem c5_counterexample : unet2dShape 1 12 8 = .error .sizeMismatch := rfl

/-- C5 amended: Micro2d.forward and ResNext2d.forward return exactly the input
shape for every spatial size at least 1.  UNet2d.forward, on inputs with both
spatial sizes at least 8, returns exactly the input shape iff the height is
divisible by 8: the width is unconstrained, because the width-only pad step
absorbs the off-by-one floor differences of the width halving chain, while
nothing ever fixes a height mismatch; when the height is not divisible by 8
the forward fails with a concatenation size mismatch (e.g. on a (1, 12, 8)
input). -/
theorem c5_theorem :
    (∀ (B H W : ℕ), 1 ≤ H → 1 ≤ W →
        micro2dShape B H W = .ok (B, H, W) ∧ resNext2dShape B H W = .ok (B, H, W)) ∧
    (∀ (B H W : ℕ), 8 ∣ H → 8 ≤ H → 8 ≤ W →
        unet2dShape B H W = .ok (B, H, W)) ∧
    (∀ (B H W : ℕ), 8 ≤ H → 8 ≤ W → ¬ (8 ∣ H) →
        unet2dShape B H W = .error .sizeMismatch) :=
  ⟨fun B H W hh hw => ⟨micro2dShape_ok B H W hh hw, resNext2dShape_ok B H W hh hw⟩,
   fun B H W hd hH hW => unet2dShape_ok_div8 B H W hd hH hW,
   fun B H W hH hW hnd => unet2dShape_err_nondiv8 B H W hH hW hnd⟩

/-- C5 witness: the three architectures evaluated at concrete sizes, including
UNet2d successes whose widths are not multiples of 8 and the non-divisible
height failure. -/
theorem c5_witness :
    (micro2dShape 2 5 7 = .ok (2, 5, 7) ∧ resNext2dShape 2 5 7 = .ok (2, 5, 7)) ∧
    (micro2dShape 1 3 3 = .ok (1, 3, 3) ∧ resNext2dShape 1 3 3 = .ok (1, 3, 3)) ∧
    unet2dShape 1 8 12 = .ok (1, 8, 12) ∧
    unet2dShape 1 16 10 = .ok (1, 16, 10) ∧
    unet2dShape 1 16 16 = .ok (1, 16, 16) ∧
    unet2dShape 1 12 8 = .error .sizeMismatch :=
  ⟨c5_theorem.1 2 5 7 (by decide) (by decide),
   c5_theorem.1 1 3 3 (by decide) (by decide),
   c5_theorem.2.1 1 8 12 (by decide) (by decide) (by decide),
   c5_theorem.2.1 1 16 10 (by decide) (by decide) (by decide),
   c5_theorem.2.1 1 16 16 (by decide) (by decide) (by decide),
   c5_theorem.2.2 1 12 8 (by decide) (by decide) (by decide)⟩

/-- C6 counterexample: constructing CSE1d and CSE2d with in_channels 6 and
reduction 4 (which does not divide 6) succeeds, and forward runs fine with the
floored squeeze width 6 // 4 = 1, refuting the claim that construction fails
whenever reduction does not divide in_channels. -/
theorem c6_counterexample :
    cse1dConstructRun 6 4 ⟨1, 6, 5⟩ = .ok ⟨1, 6, 5⟩ ∧
    cse2dConstructRun 6 4 ⟨1, 6, 5, 5⟩ = .ok ⟨1, 6, 5, 5⟩ ∧
    6 % 4 ≠ 0 :=
  ⟨rfl, rfl, by decide⟩

/-- C6 amended: the CSE constructors perform no divisibility validation: the
squeeze width is the floor in_channels // reduction, construction always
succeeds, and forward preserves the input shape whenever that floor is at
least 1, whether or not reduction divides in_channels. -/
theorem c6_theorem :
    ∀ (ic red B L H W : ℕ), 1 ≤ L → 1 ≤ H → 1 ≤ W → 1 ≤ ic / red →
      cse1dConstructRun ic red ⟨B, ic, L⟩ = .ok ⟨B, ic, L⟩ ∧
      cse2dConstructRun ic red ⟨B, ic, H, W⟩ = .ok ⟨B, ic, H, W⟩ := by
  intro ic red B L H W hL hH hW _hmid
  exact ⟨cse1dShape_ok ic (ic / red) B L hL, cse2dShape_ok ic (ic / red) B H W hH hW⟩

/-- C6 witness: the amended statement evaluated at in_channels 6, reduction 4. -/
theorem c6_witness :
    cse1dConstructRun 6 4 ⟨2, 6, 9⟩ = .ok ⟨2, 6, 9⟩ ∧
    cse2dConstructRun 6 4 ⟨2, 6, 9, 3⟩ = .ok ⟨2, 6, 9, 3⟩ :=
  c6_theorem 6 4 2 9 9 3 (by decide) (by decide) (by decide) (by decide)

/-- C7 counterexample: SENextBottleneck2d with is_shortcut False, stride 1,
in_channels 1 and out_channels 2 runs forward successfully on a (1, 1, 4, 4)
input: the residual sum broadcasts the single input channel against the two
branch channels, refuting the claim that forward fails whenever the channel
counts differ. -/
theorem c7_counterexample :
    bottleneck2dShape 1 2 1 4 1 1 false ⟨1, 1, 4, 4⟩ = .ok ⟨1, 2, 4, 4⟩ := rfl

/-- C7 amended: with is_shortcut False and stride 1 (default padding and
dilation), forward fails with a broadcast shape error exactly when the channel
counts are not broadcast compatible: it raises when in_channels and
out_channels differ and neither equals 1, and succeeds (via broadcasting) when
either side equals 1. -/
theorem c7_theorem :
    (∀ (ic oc red B H W : ℕ), 1 ≤ H → 1 ≤ W → ic ≠ oc → ic ≠ 1 → oc ≠ 1 →
        bottleneck2dShape ic oc 1 red 1 1 false ⟨B, ic, H, W⟩ =
          .error .broadcastMismatch) ∧
    (∀ (oc red B H W : ℕ), 1 ≤ H → 1 ≤ W →
        bottleneck2dShape 1 oc 1 red 1 1 false ⟨B, 1, H, W⟩ = .ok ⟨B, oc, H, W⟩) ∧
    (∀ (ic red B H W : ℕ), 1 ≤ H → 1 ≤ W →
        bottleneck2dShape ic 1 1 red 1 1 false ⟨B, ic, H, W⟩ = .ok ⟨B, ic, H, W⟩) := by
  refine ⟨?_, ?_, ?_⟩
  · intro ic oc red B H W hh hw hne h1 h2
    have hbn : broadcastNat ic oc = .error .broadcastMismatch := by
      simp [broadcastNat, hne, h1, h2]
    have hbb : broadcastBin2Shape ⟨B, ic, H, W⟩ ⟨B, oc, H, W⟩ =
        .error .broadcastMismatch := by
      simp [broadcastBin2Shape, broadcastNat_self, hbn]
    simp [bottleneck2dShape,
      convBR2dShape_ok ic oc 3 1 1 1 B H W H W (convOutShape_33_1 H hh)
        (convOutShape_33_1 W hw),
      cse2dShape_ok oc (oc / red) B H W hh hw, hbb]
  · intro oc red B H W hh hw
    have hbb : broadcastBin2Shape ⟨B, 1, H, W⟩ ⟨B, oc, H, W⟩ = .ok ⟨B, oc, H, W⟩ := by
      simp [broadcastBin2Shape, broadcastNat_self, broadcastNat_one_left]
    simp [bottleneck2dShape,
      convBR2dShape_ok 1 oc 3 1 1 1 B H W H W (convOutShape_33_1 H hh)
        (convOutShape_33_1 W hw),
      cse2dShape_ok oc (oc / red) B H W hh hw, hbb]
  · intro ic red B H W hh hw
    have hbb : broadcastBin2Shape ⟨B, ic, H, W⟩ ⟨B, 1, H, W⟩ = .ok ⟨B, ic, H, W⟩ := by
      simp [broadcastBin2Shape, broadcastNat_self, broadcastNat_one_right]
    simp [bottleneck2dShape,
      convBR2dShape_ok ic 1 3 1 1 1 B H W H W (convOutShape_33_1 H hh)
        (convOutShape_33_1 W hw),
      cse2dShape_ok 1 (1 / red) B H W hh hw, hbb]

/-- C7 witness: the three amended cases at concrete channel counts. -/
theorem c7_witness :
    bottleneck2dShape 3 2 1 4 1 1 false ⟨1, 3, 4, 5⟩ = .error .broadcastMismatch ∧
    bottleneck2dShape 1 4 1 4 1 1 false ⟨2, 1, 3, 3⟩ = .ok ⟨2, 4, 3, 3⟩ ∧
    bottleneck2dShape 5 1 1 4 1 1 false ⟨2, 5, 3, 3⟩ = .ok ⟨2, 5, 3, 3⟩ :=
  ⟨c7_theorem.1 3 2 4 1 4 5 (by decide) (by decide) (by decide) (by decide) (by decide),
   c7_theorem.2.1 4 4 2 3 3 (by decide) (by decide),
   c7_theorem.2.2 5 4 2 3 3 (by decide) (by decide)⟩
